import Mathlib

/-!
Verification development for the fault-tolerant messaging server.

The definitions below are a shallow embedding of the Python sources:
`src/Server/DatabaseManager.py`, `src/Server/AuthHandler.py` and
`src/Server/MessageServer.py`.  SQLite tables are modelled as Lean lists of
rows, the SHA-256 primitive is treated as an abstract function parameter, and
each RPC handler is translated into a pure function that returns the new
server state, an ordered trace of the routing actions it performed
(forwarding, local application, fan-out dispatches) and its response.
-/

namespace Chat

/-- Modelled from the spec: the generated protobuf module (`proto/service_pb2`)
is not part of `src/`, so the response status enums are modelled from the
specification, which gives `status ∈ {SUCCESS, FAILURE}` for every response. -/
inductive Status where
  | SUCCESS
  | FAILURE
deriving DecidableEq, Repr

/-- Modelled from the spec: the numeric values of the protobuf status enums are
not part of `src/`.  Several handlers hand the boolean result of a store
operation directly to the enum-valued `status` field; the specification
(§6, §7) requires a successful operation to surface as `SUCCESS` and a failed
one as `FAILURE`, so the coercion is modelled accordingly. -/
def statusOfBool (b : Bool) : Status :=
  if b then Status.SUCCESS else Status.FAILURE

/-- One row of the `users` table (DatabaseManager.setup_databases):
`users(username PK, password_hash, email, created_at, last_login, settings
default 50)`.  `created_at` is never read by the code under verification and
is omitted; `last_login` is `NULL` until the first successful login. -/
structure UserRow where
  username : String
  password_hash : String
  email : String
  last_login : Option Nat
  settings : Int
deriving DecidableEq, Repr

/-- One row of the `messages` table:
`messages(id INTEGER PK, sender, recipient, message, timestamp INTEGER,
isPending BOOL)`. -/
structure MessageRow where
  id : Nat
  sender : String
  recipient : String
  message : String
  timestamp : Nat
  isPending : Bool
deriving DecidableEq, Repr

/-- The per-process durable store: the `users` and `messages` tables plus the
next auto-assigned message id (SQLite INTEGER PRIMARY KEY). -/
structure DB where
  users : List UserRow
  messages : List MessageRow
  nextId : Nat
deriving DecidableEq, Repr

/-- AuthHandler.register_user: `INSERT INTO users (username, password_hash,
email)`; the PRIMARY KEY constraint raises IntegrityError when the username is
taken, which is answered with `(False, "Username already exists.")`.  The
`hash` parameter stands for `AuthHandler.hash_password` (SHA-256, treated as
an abstract function). -/
def register_user (hash : String → String) (db : DB)
    (username password email : String) : DB × Bool × String :=
  if db.users.any (fun r => r.username == username) then
    (db, false, "Username already exists.")
  else
    ({ db with users := db.users ++ [⟨username, hash password, email, none, 50⟩] },
     true, "Success")

/-- AuthHandler.authenticate_user: fetch the first `password_hash` for the
username; succeed iff a row was found and its hash equals the hash of the
supplied password, in which case `last_login` is updated to the current time
(`now`). -/
def authenticate_user (hash : String → String) (now : Nat) (db : DB)
    (username password : String) : DB × Bool × String :=
  match db.users.find? (fun r => r.username == username) with
  | some row =>
    if row.password_hash == hash password then
      ({ db with users := db.users.map (fun r =>
          if r.username == username then { r with last_login := some now } else r) },
       true, "Success")
    else
      (db, false, "Invalid username or password")
  | none => (db, false, "Invalid username or password")

/-- DatabaseManager.delete_account: `DELETE FROM users WHERE username = ?`,
then commit and return `True`.  The row count is never inspected, so the
function returns `True` whether or not a row existed. -/
def delete_account (db : DB) (username : String) : DB × Bool :=
  ({ db with users := db.users.filter (fun r => !(r.username == username)) }, true)

/-- DatabaseManager.get_settings: `SELECT settings FROM users WHERE username =
?` followed by `fetchone()[0]`.  When no row exists `fetchone()` returns
`None`, the subscript raises, and the `except` branch returns the Python value
`False`; that fallback is modelled as `none`. -/
def get_settings (db : DB) (username : String) : Option Int :=
  (db.users.find? (fun r => r.username == username)).map (fun r => r.settings)

/-- DatabaseManager.save_settings: `UPDATE users SET settings = ? WHERE
username = ?`, commit, return `True` (regardless of how many rows matched). -/
def save_settings (db : DB) (username : String) (settings : Int) : DB × Bool :=
  ({ db with users := db.users.map (fun r =>
      if r.username == username then { r with settings := settings } else r) }, true)

/-- DatabaseManager.save_message: `INSERT INTO messages (sender, recipient,
message, timestamp, isPending)`; the id is auto-assigned. -/
def save_message (db : DB) (sender recipient message : String)
    (timestamp : Nat) (isPending : Bool) : DB :=
  { db with
    messages := db.messages ++ [⟨db.nextId, sender, recipient, message, timestamp, isPending⟩],
    nextId := db.nextId + 1 }

/-- DatabaseManager.pending_message_sent: `UPDATE messages SET isPending =
False WHERE id = ?`. -/
def pending_message_sent (db : DB) (id : Nat) : DB :=
  { db with messages := db.messages.map (fun m =>
      if m.id == id then { m with isPending := false } else m) }

/-- DatabaseManager.get_pending_messages: `SELECT * FROM messages WHERE
recipient = ? AND isPending = True ORDER BY timestamp ASC`. -/
def get_pending_messages (db : DB) (username : String) : List MessageRow :=
  List.insertionSort (fun a b => a.timestamp ≤ b.timestamp)
    (db.messages.filter (fun m => m.recipient == username && m.isPending))

/-- A protobuf `Message` as queued for streaming (sender, recipient, body,
timestamp; the `source` tag is not re-serialized into the queued copy). -/
structure Msg where
  sender : String
  recipient : String
  message : String
  timestamp : Nat
deriving DecidableEq, Repr

/-- The in-memory state of one server: durable store, `active_clients`
(username to liveness of the registered stream context) and `message_queue`
(the per-user mailbox, a defaultdict of lists). -/
structure ServerState where
  db : DB
  active_clients : List (String × Bool)
  message_queue : List (String × List Msg)
deriving DecidableEq, Repr

/-- Dictionary lookup in `active_clients`; the Boolean is `context.is_active()`
of the stored stream context. -/
def lookupClient (cs : List (String × Bool)) (u : String) : Option Bool :=
  (cs.find? (fun p => p.fst == u)).map Prod.snd

/-- `self.active_clients.pop(u)`: remove the entry for `u`. -/
def removeClient (cs : List (String × Bool)) (u : String) : List (String × Bool) :=
  cs.filter (fun p => !(p.fst == u))

/-- `self.message_queue[u].append(m)` on a defaultdict: append to the existing
entry, or create a fresh singleton entry. -/
def pushQueue (q : List (String × List Msg)) (u : String) (m : Msg) :
    List (String × List Msg) :=
  match q.find? (fun p => p.fst == u) with
  | some _ => q.map (fun p => if p.fst == u then (p.fst, p.snd ++ [m]) else p)
  | none => q ++ [(u, [m])]

/-- The identity and membership view of a server: its own identifier, the
identifier it currently believes is the leader, and the keys of its
`self.servers` peer table. -/
structure ServerCtx where
  server_id : String
  leader_id : String
  peers : List String
deriving DecidableEq, Repr

/-- A write request carried over the RPC surface; every constructor carries the
`source` tag ("Client" or "Leader") in its last field. -/
inductive WriteRequest where
  | register (username password email source : String)
  | login (username password source : String)
  | send (sender recipient message : String) (timestamp : Nat) (source : String)
  | saveSettings (username : String) (setting : Int) (source : String)
  | deleteAccount (username source : String)
deriving DecidableEq, Repr

/-- The `source` field of a write request. -/
def WriteRequest.source : WriteRequest → String
  | .register _ _ _ s => s
  | .login _ _ s => s
  | .send _ _ _ _ s => s
  | .saveSettings _ _ s => s
  | .deleteAccount _ s => s

/-- The `new_request` each handler builds for fan-out: the same payload with
`source` replaced by "Leader". -/
def WriteRequest.retag : WriteRequest → WriteRequest
  | .register u p e _ => .register u p e "Leader"
  | .login u p _ => .login u p "Leader"
  | .send sd rc m ts _ => .send sd rc m ts "Leader"
  | .saveSettings u v _ => .saveSettings u v "Leader"
  | .deleteAccount u _ => .deleteAccount u "Leader"

/-- Whether the request is a SendMessage request. -/
def WriteRequest.isSend : WriteRequest → Bool
  | .send _ _ _ _ _ => true
  | _ => false

/-- A unary response: the status enum plus the human-readable message (empty
for the response types that carry no message field). -/
structure Response where
  status : Status
  message : String
deriving DecidableEq, Repr

/-- One observable routing action of a handler, in program order: forwarding
the request to the leader stub, applying the effect against the local store,
or dispatching a fan-out copy to one peer. -/
inductive Action where
  | forwarded (req : WriteRequest)
  | applied
  | dispatched (peer : String) (req : WriteRequest)
deriving DecidableEq, Repr

/-- The full outcome of running a write handler: the server state afterwards,
the ordered action trace, and the response returned to the caller. -/
structure HandlerResult where
  state : ServerState
  trace : List Action
  resp : Response
deriving DecidableEq, Repr

/-- MessageServer.Register (MessageServer.py 100-135), exception-free path.
Forward to the leader stub when a client request reaches a non-leader; apply
`register_user`; when the leader handles a client request, fan the re-tagged
request out to every peer.  The failure branch hands the Python boolean
`status` straight to the enum field (`status=status`). -/
def RegisterHandler (ctx : ServerCtx) (hash : String → String)
    (stub : WriteRequest → Response) (st : ServerState)
    (username password email source : String) : HandlerResult :=
  if source = "Client" ∧ ctx.leader_id ≠ ctx.server_id then
    { state := st,
      trace := [Action.forwarded (.register username password email source)],
      resp := stub (.register username password email source) }
  else
    let res := register_user hash st.db username password email
    let dispatches :=
      if source = "Client" ∧ ctx.leader_id = ctx.server_id then
        ctx.peers.map (fun p => Action.dispatched p (.register username password email "Leader"))
      else []
    { state := { st with db := res.1 },
      trace := Action.applied :: dispatches,
      resp := { status := statusOfBool res.2.1, message := res.2.2 } }

/-- MessageServer.Login (MessageServer.py 137-192), exception-free path. -/
def LoginHandler (ctx : ServerCtx) (hash : String → String) (now : Nat)
    (stub : WriteRequest → Response) (st : ServerState)
    (username password source : String) : HandlerResult :=
  if source = "Client" ∧ ctx.leader_id ≠ ctx.server_id then
    { state := st,
      trace := [Action.forwarded (.login username password source)],
      resp := stub (.login username password source) }
  else
    let res := authenticate_user hash now st.db username password
    let dispatches :=
      if source = "Client" ∧ ctx.leader_id = ctx.server_id then
        ctx.peers.map (fun p => Action.dispatched p (.login username password "Leader"))
      else []
    { state := { st with db := res.1 },
      trace := Action.applied :: dispatches,
      resp := { status := statusOfBool res.2.1, message := res.2.2 } }

/-- MessageServer.SendMessage (MessageServer.py 330-397), exception-free path.
Note that the fan-out loop (lines 368-372) runs before the local delivery
effect (lines 374-393).  Delivery: if the recipient has a registered stream
that is still active, enqueue on the mailbox and save with pending=false;
if the registered stream has gone inactive, drop the registration and save
with pending=true; otherwise save with pending=true. -/
def SendMessageHandler (ctx : ServerCtx) (stub : WriteRequest → Response)
    (st : ServerState) (sender recipient message : String) (timestamp : Nat)
    (source : String) : HandlerResult :=
  if source = "Client" ∧ ctx.leader_id ≠ ctx.server_id then
    { state := st,
      trace := [Action.forwarded (.send sender recipient message timestamp source)],
      resp := stub (.send sender recipient message timestamp source) }
  else
    let dispatches :=
      if source = "Client" ∧ ctx.leader_id = ctx.server_id then
        ctx.peers.map (fun p => Action.dispatched p (.send sender recipient message timestamp "Leader"))
      else []
    match lookupClient st.active_clients recipient with
    | some alive =>
      if alive then
        { state := { st with
            db := save_message st.db sender recipient message timestamp false,
            message_queue := pushQueue st.message_queue recipient
              ⟨sender, recipient, message, timestamp⟩ },
          trace := dispatches ++ [Action.applied],
          resp := { status := Status.SUCCESS, message := "" } }
      else
        { state := { st with
            db := save_message st.db sender recipient message timestamp true,
            active_clients := removeClient st.active_clients recipient },
          trace := dispatches ++ [Action.applied],
          resp := { status := Status.SUCCESS, message := "" } }
    | none =>
      { state := { st with db := save_message st.db sender recipient message timestamp true },
        trace := dispatches ++ [Action.applied],
        resp := { status := Status.SUCCESS, message := "" } }

/-- MessageServer.SaveSettings (MessageServer.py 515-560), exception-free
path. -/
def SaveSettingsHandler (ctx : ServerCtx) (stub : WriteRequest → Response)
    (st : ServerState) (username : String) (setting : Int) (source : String) :
    HandlerResult :=
  if source = "Client" ∧ ctx.leader_id ≠ ctx.server_id then
    { state := st,
      trace := [Action.forwarded (.saveSettings username setting source)],
      resp := stub (.saveSettings username setting source) }
  else
    let res := save_settings st.db username setting
    let dispatches :=
      if source = "Client" ∧ ctx.leader_id = ctx.server_id then
        ctx.peers.map (fun p => Action.dispatched p (.saveSettings username setting "Leader"))
      else []
    { state := { st with db := res.1 },
      trace := Action.applied :: dispatches,
      resp := { status := statusOfBool res.2, message := "" } }

/-- MessageServer.DeleteAccount (MessageServer.py 469-513), exception-free
path. -/
def DeleteAccountHandler (ctx : ServerCtx) (stub : WriteRequest → Response)
    (st : ServerState) (username source : String) : HandlerResult :=
  if source = "Client" ∧ ctx.leader_id ≠ ctx.server_id then
    { state := st,
      trace := [Action.forwarded (.deleteAccount username source)],
      resp := stub (.deleteAccount username source) }
  else
    let res := delete_account st.db username
    let dispatches :=
      if source = "Client" ∧ ctx.leader_id = ctx.server_id then
        ctx.peers.map (fun p => Action.dispatched p (.deleteAccount username "Leader"))
      else []
    { state := { st with db := res.1 },
      trace := Action.applied :: dispatches,
      resp := { status := statusOfBool res.2, message := "" } }

/-- Dispatch a write request to the handler that serves it. -/
def handleWrite (ctx : ServerCtx) (hash : String → String) (now : Nat)
    (stub : WriteRequest → Response) (st : ServerState) :
    WriteRequest → HandlerResult
  | .register u p e s => RegisterHandler ctx hash stub st u p e s
  | .login u p s => LoginHandler ctx hash now stub st u p s
  | .send sd rc m ts s => SendMessageHandler ctx stub st sd rc m ts s
  | .saveSettings u v s => SaveSettingsHandler ctx stub st u v s
  | .deleteAccount u s => DeleteAccountHandler ctx stub st u s

/-- One element of the PendingMessageResponse stream. -/
structure PendingResponse where
  status : Status
  msg : Msg
deriving DecidableEq, Repr

/-- The while loop of MessageServer.GetPendingMessage (lines 259-275): pop the
head of the fetched pending list while the counter stays below the inbox
limit, mark each popped message as sent in the store, and yield it with
status SUCCESS. -/
def drainPending : DB → List MessageRow → Nat → List PendingResponse × DB
  | db, _, 0 => ([], db)
  | db, [], _ + 1 => ([], db)
  | db, m :: rest, k + 1 =>
    let db1 := pending_message_sent db m.id
    let res := drainPending db1 rest k
    (⟨Status.SUCCESS, ⟨m.sender, m.recipient, m.message, m.timestamp⟩⟩ :: res.1, res.2)

/-- MessageServer.GetPendingMessage (MessageServer.py 228-293).  A client
request at a non-leader is forwarded (`stubStream` stands for the leader's
stream).  Otherwise the fetched pending messages are drained up to the inbox
limit.  When the leader handled a client request, the propagation block at
line 280 constructs `service_pb2.GetPendingMessage(...)`, which is not a
protobuf message type; the resulting AttributeError is caught by the `except`
branch, which yields one extra FAILURE response built from the error text
(`errText`) and the current time (`errTs`). -/
def GetPendingMessageHandler (ctx : ServerCtx) (stubStream : List PendingResponse)
    (errText : String) (errTs : Nat) (st : ServerState)
    (username : String) (inbox_limit : Nat) (source : String) :
    List PendingResponse × ServerState :=
  if source = "Client" ∧ ctx.leader_id ≠ ctx.server_id then
    (stubStream, st)
  else
    let res := drainPending st.db (get_pending_messages st.db username) inbox_limit
    if source = "Client" ∧ ctx.leader_id = ctx.server_id then
      (res.1 ++ [⟨Status.FAILURE, ⟨"error", "error", errText, errTs⟩⟩],
       { st with db := res.2 })
    else
      (res.1, { st with db := res.2 })

/-- Python serialization of the `get_settings` result into the int32 `setting`
field of GetSettingsResponse: an integer passes through, the fallback value
`False` serializes as 0. -/
def serializeSetting : Option Int → Int
  | some n => n
  | none => 0

/-- MessageServer.GetSettings (MessageServer.py 562-588): read the setting via
`get_settings` and answer SUCCESS with the serialized value (`get_settings`
swallows its own lookup failure, so the handler's except branch is not
reached). -/
def GetSettingsHandler (db : DB) (username : String) : Status × Int :=
  (Status.SUCCESS, serializeSetting (get_settings db username))

/-- Subscription registration at the top of MessageServer.MonitorMessages
(lines 430-439): pop any stale entry for the user, then register the new
stream context (its liveness modelled by `alive`). -/
def monitorAttach (clients : List (String × Bool)) (u : String) (alive : Bool) :
    List (String × Bool) :=
  (clients.filter (fun p => !(p.fst == u))) ++ [(u, alive)]

/-- The `finally` block of MessageServer.MonitorMessages (lines 461-465): the
pop of the subscription is commented out in the source, so the block only
logs and the active-clients map is returned unchanged. -/
def monitorFinally (clients : List (String × Bool)) (_u : String) :
    List (String × Bool) :=
  clients

/-- The per-server database file name derived in AuthHandler (AuthHandler.py
line 11): `f"{ip}_{port}.db"`. -/
def authDbName (ip port : String) : String :=
  ip ++ "_" ++ port ++ ".db"

/-- A durable-store operation of the server, grouped by the module that
implements it. -/
inductive StoreOp where
  | setupTables
  | getContacts
  | deleteAcctOp
  | getSettingsOp
  | saveSettingsOp
  | saveMessageOp
  | pendingSentOp
  | getPendingOp
  | getMessagesOp
  | getServersOp
  | registerUserOp
  | authenticateUserOp
deriving DecidableEq, Repr

/-- The database file each durable-store operation opens for a server started
at `ip:port`.  The two AuthHandler operations use the derived per-server name
(AuthHandler.py 11, 21, 38); every DatabaseManager operation opens the
hardcoded file `users.db` (DatabaseManager.py 7, 46, 60, 92, 104, 119, 133,
144, 156, 169, ...), ignoring the server's address. -/
def dbFileOf (ip port : String) : StoreOp → String
  | .registerUserOp => authDbName ip port
  | .authenticateUserOp => authDbName ip port
  | _ => "users.db"

/-- One entry of the in-memory peer table `self.servers`: address plus the RPC
handle, modelled by the address string the channel was opened against. -/
structure PeerInfo where
  ip : String
  port : String
  stub : String
deriving DecidableEq, Repr

/-- The inputs of MessageServer.run_election: the server's own identity and
address and its current peer table. -/
structure ElectionState where
  server_id : String
  ip : String
  port : String
  servers : List (String × PeerInfo)
deriving DecidableEq, Repr

/-- The leader reference `self.leader` after an election: identifier, address,
and handle. -/
structure LeaderRef where
  id : String
  ip : String
  port : String
  stub : String
deriving DecidableEq, Repr

/-- The handle obtained from `grpc.insecure_channel(f"{ip}:{port}")`. -/
def channelTo (ip port : String) : String :=
  ip ++ ":" ++ port

/-- One step of Python's built-in `min` over strings: keep the accumulator
unless the next element is strictly smaller (ties keep the earlier element). -/
def minAcc (a b : String) : String :=
  if b < a then b else a

/-- Python's `min` over a non-empty list of strings (lexicographic by code
point, which is exactly the order of the `LinearOrder String` instance). -/
def pyMin : List String → String
  | [] => ""
  | x :: xs => xs.foldl minAcc x

/-- MessageServer.run_election (MessageServer.py 763-793): with an empty peer
table the server installs itself; otherwise the smallest identifier among the
peer-table keys and the server's own identifier wins, and the leader
reference is set to self or to the winning peer's stored entry accordingly.
The `none` branch of the lookup mirrors the KeyError Python would raise if
the winner were neither self nor a peer-table key; it is proven unreachable
below. -/
def run_election (s : ElectionState) : LeaderRef :=
  if s.servers.isEmpty then
    ⟨s.server_id, s.ip, s.port, channelTo s.ip s.port⟩
  else
    let all_servers := s.servers.map Prod.fst ++ [s.server_id]
    let next_leader_id := pyMin all_servers
    if next_leader_id = s.server_id then
      ⟨s.server_id, s.ip, s.port, channelTo s.ip s.port⟩
    else
      match s.servers.find? (fun p => p.fst == next_leader_id) with
      | some p => ⟨next_leader_id, p.snd.ip, p.snd.port, p.snd.stub⟩
      | none => ⟨next_leader_id, "", "", ""⟩

/-! Concrete fixtures used by witnesses and counterexamples. -/

/-- An empty durable store (SQLite assigns the first rowid 1). -/
def dbEmpty : DB := ⟨[], [], 1⟩

/-- A server state with an empty store, no active clients and empty queues. -/
def stEmpty : ServerState := ⟨dbEmpty, [], []⟩

/-- A leader context with one peer. -/
def ctxLead : ServerCtx := ⟨"s1", "s1", ["s2"]⟩

/-- A leader stub that always answers FAILURE, for concrete evaluations. -/
def stubFail : WriteRequest → Response := fun _ => ⟨Status.FAILURE, ""⟩

/-- The identity function standing in for the password hash in concrete
evaluations (C7 is proven for an arbitrary hash function). -/
def hashId : String → String := fun s => s

/-- A store holding exactly one registered user, carol. -/
def rowCarol : UserRow := ⟨"carol", "h1", "c@x", none, 50⟩

/-- A server state whose store holds only carol's row. -/
def stCarol : ServerState := ⟨⟨[rowCarol], [], 1⟩, [], []⟩

/-- A store with three pending messages for bob, ids 1-3, increasing
timestamps. -/
def dbPend : DB :=
  ⟨[], [⟨1, "alice", "bob", "m1", 10, true⟩, ⟨2, "alice", "bob", "m2", 20, true⟩,
        ⟨3, "alice", "bob", "m3", 30, true⟩], 4⟩

/-- A server state around `dbPend`. -/
def stPend : ServerState := ⟨dbPend, [], []⟩

/-- An election state with an empty peer table. -/
def sElecEmpty : ElectionState := ⟨"self-id", "1.2.3.4", "5001", []⟩

/-! Claim C1: the routing rule, stated exactly as the specification words it
(forward-only at a non-leader; apply the effect locally and THEN dispatch the
re-tagged request to every peer when the leader serves a client; apply-only
for leader-sourced requests). -/

/-- C1 as stated, for one handler execution. -/
def routingClaimStated (ctx : ServerCtx) (hash : String → String) (now : Nat)
    (stub : WriteRequest → Response) (st : ServerState) (req : WriteRequest) : Prop :=
  (req.source = "Client" ∧ ctx.leader_id ≠ ctx.server_id →
    (handleWrite ctx hash now stub st req).resp = stub req ∧
    (handleWrite ctx hash now stub st req).state = st) ∧
  (req.source = "Client" ∧ ctx.leader_id = ctx.server_id →
    (handleWrite ctx hash now stub st req).trace =
      Action.applied :: ctx.peers.map (fun p => Action.dispatched p req.retag)) ∧
  (req.source = "Leader" →
    (handleWrite ctx hash now stub st req).trace = [Action.applied])

/-- C1 (counterexample): SendMessage violates the claimed apply-then-dispatch
order.  At the leader `s1` with one peer `s2`, a client-sourced SendMessage
dispatches the re-tagged request to the peer before applying the effect
locally (MessageServer.py lines 368-372 precede 374-393), so the claimed
routing rule fails at this concrete input. -/
theorem C1_routing_counterexample :
    ¬ routingClaimStated ctxLead hashId 0 stubFail stEmpty
        (WriteRequest.send "alice" "bob" "hi" 1 "Client") := by
  intro h
  have h2 := h.2.1 ⟨rfl, rfl⟩
  simp [handleWrite, SendMessageHandler, ctxLead, stEmpty, dbEmpty, lookupClient,
    WriteRequest.retag] at h2

/-- C1 (amended): every write handler forwards a client request at a
non-leader to the leader stub and returns its response without touching local
state; at the leader a client request is both applied locally and dispatched,
re-tagged with source="Leader", to every peer — with the local apply first for
Register, Login, SaveSettings and DeleteAccount but the fan-out first for
SendMessage; a leader-sourced request is applied locally only, with no
forwarding and no fan-out. -/
theorem C1_write_routing (ctx : ServerCtx) (hash : String → String) (now : Nat)
    (stub : WriteRequest → Response) (st : ServerState) (req : WriteRequest) :
    (req.source = "Client" ∧ ctx.leader_id ≠ ctx.server_id →
      (handleWrite ctx hash now stub st req).resp = stub req ∧
      (handleWrite ctx hash now stub st req).state = st ∧
      (handleWrite ctx hash now stub st req).trace = [Action.forwarded req]) ∧
    (req.source = "Client" ∧ ctx.leader_id = ctx.server_id →
      (handleWrite ctx hash now stub st req).trace =
        (if req.isSend then
          ctx.peers.map (fun p => Action.dispatched p req.retag) ++ [Action.applied]
        else
          Action.applied :: ctx.peers.map (fun p => Action.dispatched p req.retag))) ∧
    (req.source = "Leader" →
      (handleWrite ctx hash now stub st req).trace = [Action.applied]) := by
  have hLC : ("Leader" : String) ≠ "Client" := by decide
  cases req with
  | register u p e s =>
    refine ⟨fun h => ?_, fun h => ?_, fun h => ?_⟩
    · obtain ⟨h1, h2⟩ := h
      simp only [WriteRequest.source] at h1
      subst h1
      simp [handleWrite, RegisterHandler, h2]
    · obtain ⟨h1, h2⟩ := h
      simp only [WriteRequest.source] at h1
      subst h1
      simp [handleWrite, RegisterHandler, h2, WriteRequest.isSend, WriteRequest.retag]
    · simp only [WriteRequest.source] at h
      subst h
      simp [handleWrite, RegisterHandler, hLC]
  | login u p s =>
    refine ⟨fun h => ?_, fun h => ?_, fun h => ?_⟩
    · obtain ⟨h1, h2⟩ := h
      simp only [WriteRequest.source] at h1
      subst h1
      simp [handleWrite, LoginHandler, h2]
    · obtain ⟨h1, h2⟩ := h
      simp only [WriteRequest.source] at h1
      subst h1
      simp [handleWrite, LoginHandler, h2, WriteRequest.isSend, WriteRequest.retag]
    · simp only [WriteRequest.source] at h
      subst h
      simp [handleWrite, LoginHandler, hLC]
  | send sd rc m ts s =>
    refine ⟨fun h => ?_, fun h => ?_, fun h => ?_⟩
    · obtain ⟨h1, h2⟩ := h
      simp only [WriteRequest.source] at h1
      subst h1
      simp [handleWrite, SendMessageHandler, h2]
    · obtain ⟨h1, h2⟩ := h
      simp only [WriteRequest.source] at h1
      subst h1
      rcases hlc : lookupClient st.active_clients rc with _ | alive
      · simp [handleWrite, SendMessageHandler, h2, hlc, WriteRequest.isSend,
          WriteRequest.retag]
      · cases alive <;>
          simp [handleWrite, SendMessageHandler, h2, hlc, WriteRequest.isSend,
            WriteRequest.retag]
    · simp only [WriteRequest.source] at h
      subst h
      rcases hlc : lookupClient st.active_clients rc with _ | alive
      · simp [handleWrite, SendMessageHandler, hLC, hlc]
      · cases alive <;> simp [handleWrite, SendMessageHandler, hLC, hlc]
  | saveSettings u v s =>
    refine ⟨fun h => ?_, fun h => ?_, fun h => ?_⟩
    · obtain ⟨h1, h2⟩ := h
      simp only [WriteRequest.source] at h1
      subst h1
      simp [handleWrite, SaveSettingsHandler, h2]
    · obtain ⟨h1, h2⟩ := h
      simp only [WriteRequest.source] at h1
      subst h1
      simp [handleWrite, SaveSettingsHandler, h2, WriteRequest.isSend, WriteRequest.retag]
    · simp only [WriteRequest.source] at h
      subst h
      simp [handleWrite, SaveSettingsHandler, hLC]
  | deleteAccount u s =>
    refine ⟨fun h => ?_, fun h => ?_, fun h => ?_⟩
    · obtain ⟨h1, h2⟩ := h
      simp only [WriteRequest.source] at h1
      subst h1
      simp [handleWrite, DeleteAccountHandler, h2]
    · obtain ⟨h1, h2⟩ := h
      simp only [WriteRequest.source] at h1
      subst h1
      simp [handleWrite, DeleteAccountHandler, h2, WriteRequest.isSend, WriteRequest.retag]
    · simp only [WriteRequest.source] at h
      subst h
      simp [handleWrite, DeleteAccountHandler, hLC]

/-- C1 witness: a leader-sourced DeleteAccount at a concrete server applies
locally only. -/
theorem C1_write_routing_witness :
    (handleWrite ctxLead hashId 0 stubFail stEmpty
        (WriteRequest.deleteAccount "u" "Leader")).trace = [Action.applied] :=
  (C1_write_routing ctxLead hashId 0 stubFail stEmpty
      (WriteRequest.deleteAccount "u" "Leader")).2.2 rfl

/-! Claim C2: minimum-identifier leader election. -/

theorem foldl_minAcc_le_init (xs : List String) (a : String) :
    xs.foldl minAcc a ≤ a := by
  induction xs generalizing a with
  | nil => exact le_rfl
  | cons b xs ih =>
    simp only [List.foldl_cons]
    refine le_trans (ih (minAcc a b)) ?_
    unfold minAcc
    split
    · exact le_of_lt (by assumption)
    · exact le_rfl

theorem foldl_minAcc_le_mem (xs : List String) (a : String) :
    ∀ c ∈ xs, xs.foldl minAcc a ≤ c := by
  induction xs generalizing a with
  | nil => intro c hc; cases hc
  | cons b xs ih =>
    intro c hc
    simp only [List.foldl_cons]
    rcases List.mem_cons.mp hc with h | h
    · subst h
      refine le_trans (foldl_minAcc_le_init xs (minAcc a c)) ?_
      unfold minAcc
      split
      · exact le_rfl
      · exact le_of_not_lt (by assumption)
    · exact ih (minAcc a b) c h

theorem foldl_minAcc_mem (xs : List String) (a : String) :
    xs.foldl minAcc a = a ∨ xs.foldl minAcc a ∈ xs := by
  induction xs generalizing a with
  | nil => exact Or.inl rfl
  | cons b xs ih =>
    simp only [List.foldl_cons]
    rcases ih (minAcc a b) with h | h
    · rw [h]
      unfold minAcc
      split
      · exact Or.inr (List.mem_cons_self b xs)
      · exact Or.inl rfl
    · exact Or.inr (List.mem_cons_of_mem b h)

/-- C2: run_election installs as leader the lexicographic minimum of the peer
table's identifiers together with the server's own identifier; when that
minimum is the server itself the leader reference names self (own address,
self-loopback handle), otherwise it carries the winning peer's stored
identifier, address and handle; with an empty peer table the server installs
itself. -/
theorem C2_run_election_min (s : ElectionState) :
    ((run_election s).id = s.server_id ∨ (run_election s).id ∈ s.servers.map Prod.fst) ∧
    ((run_election s).id ≤ s.server_id ∧
      ∀ c ∈ s.servers.map Prod.fst, (run_election s).id ≤ c) ∧
    ((run_election s).id = s.server_id →
      (run_election s).ip = s.ip ∧ (run_election s).port = s.port ∧
      (run_election s).stub = channelTo s.ip s.port) ∧
    ((run_election s).id ≠ s.server_id →
      ∃ info, ((run_election s).id, info) ∈ s.servers ∧
        (run_election s).ip = info.ip ∧ (run_election s).port = info.port ∧
        (run_election s).stub = info.stub) ∧
    (s.servers = [] → (run_election s).id = s.server_id) := by
  cases hs : s.servers with
  | nil =>
    simp [run_election, hs]
  | cons hd rest =>
    obtain ⟨k, info⟩ := hd
    have hmem := foldl_minAcc_mem (rest.map Prod.fst ++ [s.server_id]) k
    have hle_init := foldl_minAcc_le_init (rest.map Prod.fst ++ [s.server_id]) k
    have hle_mem := foldl_minAcc_le_mem (rest.map Prod.fst ++ [s.server_id]) k
    simp only [run_election, hs, List.isEmpty_cons, List.map_cons, List.cons_append,
      pyMin, if_false, Bool.false_eq_true]
    set m := (rest.map Prod.fst ++ [s.server_id]).foldl minAcc k with hmdef
    by_cases hsel : m = s.server_id
    · simp only [hsel, if_pos rfl]
      refine ⟨Or.inl rfl, ⟨le_rfl, ?_⟩, fun _ => ⟨rfl, rfl, rfl⟩, fun hne => absurd rfl hne,
        fun _ => rfl⟩
      intro c hc
      rw [← hsel]
      rcases List.mem_cons.mp hc with h | h
      · exact h ▸ hle_init
      · exact hle_mem c (List.mem_append_left _ h)
    · have hmk : m = k ∨ m ∈ rest.map Prod.fst := by
        rcases hmem with h | h
        · exact Or.inl h
        · rcases List.mem_append.mp h with h | h
          · exact Or.inr h
          · exact absurd (List.mem_singleton.mp h) hsel
      have hfind : ((k, info) :: rest).find? (fun p => p.fst == m) ≠ none := by
        intro hnone
        have hall := List.find?_eq_none.mp hnone
        rcases hmk with h | h
        · exact hall (k, info) (List.mem_cons_self _ _) (by simp [h])
        · rcases List.mem_map.mp h with ⟨p, hp, hpfst⟩
          exact hall p (List.mem_cons_of_mem _ hp) (by simp [hpfst])
      rcases hf : ((k, info) :: rest).find? (fun p => p.fst == m) with _ | p
      · exact absurd hf hfind
      · have hpfst : p.fst = m := by
          have := List.find?_some hf
          simpa using this
        have hpmem : p ∈ (k, info) :: rest := List.mem_of_find?_eq_some hf
        simp only [hf, if_neg hsel]
        refine ⟨?_, ⟨hle_mem _ (List.mem_append_right _ (List.mem_singleton_self _)), ?_⟩,
          fun heq => absurd heq hsel, fun _ => ⟨p.snd, ?_, rfl, rfl, rfl⟩, fun hnil => by cases hnil⟩
        · right
          rcases hmk with h | h
          · exact h ▸ List.mem_cons_self _ _
          · exact List.mem_cons_of_mem _ h
        · intro c hc
          rcases List.mem_cons.mp hc with h | h
          · exact h ▸ hle_init
          · exact hle_mem c (List.mem_append_left _ h)
        · rw [← hpfst]
          exact hpmem

/-- C2 witness: with an empty peer table the concrete server installs
itself. -/
theorem C2_run_election_min_witness :
    (run_election sElecEmpty).id = sElecEmpty.server_id :=
  (C2_run_election_min sElecEmpty).2.2.2.2 rfl

/-! Claim C3: DeleteAccount on a username without a row. -/

/-- C3 (counterexample): deleting the unknown username "ghost" at the leader
answers SUCCESS, not the claimed FAILURE — `delete_account` returns True
without inspecting the affected-row count. -/
theorem C3_delete_missing_counterexample :
    (stEmpty.db.users.all (fun r => !(r.username == "ghost"))) = true ∧
    (handleWrite ctxLead hashId 0 stubFail stEmpty
        (WriteRequest.deleteAccount "ghost" "Client")).resp.status ≠ Status.FAILURE := by
  decide

/-- C3 (amended): for a username with no row in the users table, DeleteAccount
leaves the store (and the whole in-memory state) unchanged at every executing
server, and every server that applies the effect locally (the leader on a
client request, or any server on a leader-sourced request) returns SUCCESS
rather than FAILURE, because delete_account returns True unconditionally. -/
theorem C3_delete_missing (ctx : ServerCtx) (hash : String → String) (now : Nat)
    (stub : WriteRequest → Response) (st : ServerState) (u src : String)
    (hnone : ∀ r ∈ st.db.users, r.username ≠ u) :
    (handleWrite ctx hash now stub st (.deleteAccount u src)).state = st ∧
    (¬(src = "Client" ∧ ctx.leader_id ≠ ctx.server_id) →
      (handleWrite ctx hash now stub st (.deleteAccount u src)).resp.status
        = Status.SUCCESS) := by
  have hfil : st.db.users.filter (fun r => !(r.username == u)) = st.db.users :=
    List.filter_eq_self.mpr (fun r hr => by simp [hnone r hr])
  by_cases hfwd : src = "Client" ∧ ctx.leader_id ≠ ctx.server_id
  · simp [handleWrite, DeleteAccountHandler, hfwd]
  · simp [handleWrite, DeleteAccountHandler, hfwd, delete_account, hfil, statusOfBool]

/-- C3 witness: concrete evaluation of the amended claim. -/
theorem C3_delete_missing_witness :
    (handleWrite ctxLead hashId 0 stubFail stEmpty
        (WriteRequest.deleteAccount "ghost" "Leader")).state = stEmpty :=
  (C3_delete_missing ctxLead hashId 0 stubFail stEmpty "ghost" "Leader"
      (by intro r hr; simp [stEmpty, dbEmpty] at hr)).1

/-! Claim C4: GetPendingMessage with a limit. -/

/-- C4: at the leader, a client-sourced GetPendingMessage for bob with inbox
limit 2 over three pending messages yields THREE stream elements — the two
drained messages with status SUCCESS followed by a FAILURE element produced
when the propagation block's `service_pb2.GetPendingMessage(...)` raises
AttributeError — while the store keeps exactly the third message pending.
The claimed bound of at most L yielded messages fails on this execution. -/
theorem C4_pending_extra_yield :
    ((GetPendingMessageHandler ctxLead [] "err" 99 stPend "bob" 2 "Client").1.map
        PendingResponse.status = [Status.SUCCESS, Status.SUCCESS, Status.FAILURE]) ∧
    ((GetPendingMessageHandler ctxLead [] "err" 99 stPend "bob" 2 "Client").2.db.messages.filter
        (fun m => m.isPending)).length = 1 := by
  decide

/-! Claim C5: the SendMessage delivery effect. -/

/-- C5: whenever SendMessage applies its effect at the executing server (it is
not forwarding), the reply is SUCCESS; if the recipient has a registered
subscription whose stream is still active the message is enqueued on the
recipient's mailbox and durably recorded with pending=false, otherwise it is
durably recorded with pending=true and the mailbox is untouched. -/
theorem C5_send_effect (ctx : ServerCtx) (hash : String → String) (now : Nat)
    (stub : WriteRequest → Response) (st : ServerState)
    (sender recipient message : String) (ts : Nat) (src : String)
    (hap : ¬(src = "Client" ∧ ctx.leader_id ≠ ctx.server_id)) :
    (handleWrite ctx hash now stub st (.send sender recipient message ts src)).resp.status
        = Status.SUCCESS ∧
    (if lookupClient st.active_clients recipient = some true then
      (handleWrite ctx hash now stub st (.send sender recipient message ts src)).state.db
          = save_message st.db sender recipient message ts false ∧
      (handleWrite ctx hash now stub st (.send sender recipient message ts src)).state.message_queue
          = pushQueue st.message_queue recipient ⟨sender, recipient, message, ts⟩
    else
      (handleWrite ctx hash now stub st (.send sender recipient message ts src)).state.db
          = save_message st.db sender recipient message ts true ∧
      (handleWrite ctx hash now stub st (.send sender recipient message ts src)).state.message_queue
          = st.message_queue) := by
  rcases hlc : lookupClient st.active_clients recipient with _ | alive
  · simp [handleWrite, SendMessageHandler, hap, hlc]
  · cases alive <;> simp [handleWrite, SendMessageHandler, hap, hlc]

/-- C5 witness: sending to the offline user bob records the message as
pending and succeeds. -/
theorem C5_send_effect_witness :
    (handleWrite ctxLead hashId 0 stubFail stEmpty
        (WriteRequest.send "alice" "bob" "hi" 1 "Leader")).resp.status = Status.SUCCESS :=
  (C5_send_effect ctxLead hashId 0 stubFail stEmpty "alice" "bob" "hi" 1 "Leader"
      (by decide)).1

/-! Claim C6: duplicate registration. -/

/-- C6: when the username already has a row, a Register execution that applies
the effect (leader on a client request, or any server on a leader-sourced
request) answers FAILURE with the message "Username already exists." and
leaves the whole state — in particular the existing row with its password
hash and email — unchanged. -/
theorem C6_duplicate_register (ctx : ServerCtx) (hash : String → String) (now : Nat)
    (stub : WriteRequest → Response) (st : ServerState) (u p e src : String)
    (row : UserRow)
    (hap : ¬(src = "Client" ∧ ctx.leader_id ≠ ctx.server_id))
    (hmem : row ∈ st.db.users) (hname : row.username = u) :
    (handleWrite ctx hash now stub st (.register u p e src)).resp.status = Status.FAILURE ∧
    (handleWrite ctx hash now stub st (.register u p e src)).resp.message
      = "Username already exists." ∧
    (handleWrite ctx hash now stub st (.register u p e src)).state = st := by
  have hany : st.db.users.any (fun r => r.username == u) = true :=
    List.any_eq_true.mpr ⟨row, hmem, by simp [hname]⟩
  simp [handleWrite, RegisterHandler, hap, register_user, hany, statusOfBool]

/-- C6 witness: re-registering carol fails with the duplicate message. -/
theorem C6_duplicate_register_witness :
    (handleWrite ctxLead hashId 0 stubFail stCarol
        (WriteRequest.register "carol" "pw2" "c2@x" "Leader")).resp.message
      = "Username already exists." :=
  (C6_duplicate_register ctxLead hashId 0 stubFail stCarol "carol" "pw2" "c2@x" "Leader"
      rowCarol (by decide) (List.mem_singleton_self rowCarol) rfl).2.1

/-! Claim C7: authentication. -/

/-- C7: under the users-table primary-key invariant, authenticate_user
succeeds exactly when a row for the username exists whose stored hash equals
the hash of the supplied password; on success the store is the original with
that user's last-login set to the current time, and on failure the store is
unchanged. -/
theorem C7_authenticate (hash : String → String) (now : Nat) (db : DB)
    (u p : String) (hnd : (db.users.map UserRow.username).Nodup) :
    ((authenticate_user hash now db u p).2.1 = true ↔
      ∃ row ∈ db.users, row.username = u ∧ row.password_hash = hash p) ∧
    ((authenticate_user hash now db u p).2.1 = true →
      (authenticate_user hash now db u p).1 =
        { db with users := db.users.map (fun r =>
            if r.username == u then { r with last_login := some now } else r) }) ∧
    ((authenticate_user hash now db u p).2.1 = false →
      (authenticate_user hash now db u p).1 = db) := by
  rcases hf : db.users.find? (fun r => r.username == u) with _ | row
  · have hall := List.find?_eq_none.mp hf
    refine ⟨⟨fun h => ?_, fun h => ?_⟩, fun h => ?_, fun _ => ?_⟩
    · simp [authenticate_user, hf] at h
    · obtain ⟨r, hr, hru, _⟩ := h
      exact absurd (by simp [hru]) (hall r hr)
    · simp [authenticate_user, hf] at h
    · simp [authenticate_user, hf]
  · have hrowu : row.username = u := by
      have := List.find?_some hf
      simpa using this
    have hrowmem : row ∈ db.users := List.mem_of_find?_eq_some hf
    by_cases hpw : row.password_hash = hash p
    · refine ⟨⟨fun _ => ⟨row, hrowmem, hrowu, hpw⟩, fun _ => ?_⟩, fun _ => ?_, fun h => ?_⟩
      · simp [authenticate_user, hf, hpw]
      · simp [authenticate_user, hf, hpw]
      · simp [authenticate_user, hf, hpw] at h
    · refine ⟨⟨fun h => ?_, fun h => ?_⟩, fun h => ?_, fun _ => ?_⟩
      · simp [authenticate_user, hf, hpw] at h
      · obtain ⟨r, hr, hru, hrp⟩ := h
        have : r = row :=
          List.inj_on_of_nodup_map hnd hr hrowmem (by rw [hru, hrowu])
        exact absurd (this ▸ hrp) hpw
      · simp [authenticate_user, hf, hpw] at h
      · simp [authenticate_user, hf, hpw]

/-- C7 witness: carol authenticates with her stored hash, and a wrong password
fails. -/
theorem C7_authenticate_witness :
    (authenticate_user hashId 5 stCarol.db "carol" "h1").2.1 = true :=
  (C7_authenticate hashId 5 stCarol.db "carol" "h1" (by decide)).1.mpr
    ⟨rowCarol, List.mem_singleton_self rowCarol, rfl, rfl⟩

/-! Claim C8: subscription removal on MonitorMessages exit. -/

/-- C8: after alice's MonitorMessages stream registers and then exits through
the handler's finally block, her subscription is STILL present in the
active-clients map — the removal is commented out in the source — so the
claimed cleanup does not happen. -/
theorem C8_subscription_survives_exit :
    lookupClient (monitorFinally (monitorAttach [] "alice" true) "alice") "alice"
      = some true := by
  decide

/-! Claim C9: per-server database files. -/

/-- C9: two servers on one host started at ports 5001 and 5002 open the same
database file for the message-table operation (both open the hardcoded
"users.db"), and that file differs from the per-server name
"127.0.0.1_5001.db" the specification mandates; additionally, on a single
server the users-table operations handled by AuthHandler target a different
file than the message-table operations, so the three tables do not share one
per-server file. -/
theorem C9_store_not_per_server :
    dbFileOf "127.0.0.1" "5001" StoreOp.saveMessageOp
        = dbFileOf "127.0.0.1" "5002" StoreOp.saveMessageOp ∧
    dbFileOf "127.0.0.1" "5001" StoreOp.saveMessageOp ≠ authDbName "127.0.0.1" "5001" ∧
    dbFileOf "127.0.0.1" "5001" StoreOp.registerUserOp
        ≠ dbFileOf "127.0.0.1" "5001" StoreOp.saveMessageOp := by
  decide

/-! Claim C10: GetSettings for an unknown username. -/

/-- C10: for a username with no users-table row, get_settings falls back to
`none` (the Python value False), and the GetSettings handler serializes that
fallback into a SUCCESS response with setting 0. -/
theorem C10_get_settings_missing (db : DB) (u : String)
    (hnone : ∀ r ∈ db.users, r.username ≠ u) :
    get_settings db u = none ∧ GetSettingsHandler db u = (Status.SUCCESS, 0) := by
  have hf : db.users.find? (fun r => r.username == u) = none :=
    List.find?_eq_none.mpr (fun r hr => by simp [hnone r hr])
  simp [get_settings, GetSettingsHandler, serializeSetting, hf]

/-- C10 witness: concrete evaluation on an empty store. -/
theorem C10_get_settings_missing_witness :
    GetSettingsHandler dbEmpty "ghost" = (Status.SUCCESS, 0) :=
  (C10_get_settings_missing dbEmpty "ghost"
      (by intro r hr; simp [dbEmpty] at hr)).2

end Chat
